import Mathlib

/-!
# Verification of the interaction gates of saturni-nigrum

Shallow embedding of the four interaction-gating state machines of the
repository (SequenceGate / ClockSecretGate / BreathCycleGate / the scene
reducer) together with the cube alignment detector, and proofs of the
claims about them.

Source files embedded here:
* FlowerOfLife (src/unnamed/part_006): the 13-click sequence gate.
* SaturnObject.checkTimingSecret (src/src/lib/components/objects/SaturnObject.js).
* TriangleObject.checkBreathClick (src/src/lib/components/objects/TriangleObject.js).
* The reducer and action creators (src/unnamed/part_008).
* The onMount magic-word bypass (src/unnamed/part_002).
* The animate loop's hexagon-strength computation and updateCubeAppearance
  (src/unnamed/part_005).

Machine numbers: JavaScript numbers are modelled as rationals where the code
does arithmetic on times and strengths, and as naturals where the code only
counts or compares small integers.
-/

/-! ## SequenceGate: FlowerOfLife (src/unnamed/part_006)

State of a FlowerOfLife instance after create(): the ordered list of correct
clicks received (metatronClicks), the terminal flag (showMetatron), the
visibility of the two groups, and the color of each of the 13 circles
(index = circle id).  The raycasting that resolves a pointer event to a
node id is rendering-layer code; handleClick is embedded at the id level,
exactly from the branch that starts once clickedNode.userData.id is known. -/

structure FlowerState where
  metatronClicks : List Nat
  showMetatron : Bool
  flowerVisible : Bool
  metatronVisible : Bool
  circleColors : List Nat
  deriving Repr, DecidableEq

/-- FRUIT_OF_LIFE_ORDER from part_006 line 14. -/
def FRUIT_OF_LIFE_ORDER : List Nat := [0, 1, 3, 5, 2, 4, 6, 7, 9, 11, 8, 10, 12]

/-- State after create(): no clicks, pattern not complete, both groups hidden,
all 13 circles white (0xffffff). -/
def FlowerOfLife.init : FlowerState :=
  { metatronClicks := []
    showMetatron := false
    flowerVisible := false
    metatronVisible := false
    circleColors := List.replicate 13 0xffffff }

/-- reset() (part_006 lines 265-274): clear the click list, clear the terminal
flag, restore every circle color to white. -/
def FlowerOfLife.reset (st : FlowerState) : FlowerState :=
  { st with
    metatronClicks := []
    showMetatron := false
    circleColors := st.circleColors.map (fun _ => 0xffffff) }

/-- handleClick (part_006 lines 184-263), at the id level: given the id of the
clicked node, advance or reset the sequence.  In the source the expected id is
FRUIT_OF_LIFE_ORDER[metatronClicks.length]; when the list is already full that
index is out of range and the JavaScript lookup yields undefined, which never
equals a numeric id - the Option-valued lookup models this.  The 500 ms
delayed visibility swap after completion is folded into the completing click.
Returns the new state and the boolean the method returns. -/
def FlowerOfLife.handleClick (st : FlowerState) (clickedId : Nat) : FlowerState × Bool :=
  if st.showMetatron then (st, false)
  else if some clickedId = FRUIT_OF_LIFE_ORDER.get? st.metatronClicks.length then
    let clicks := st.metatronClicks ++ [clickedId]
    let colors := st.circleColors.set clickedId 0x666666
    if clicks.length = 13 then
      ({ st with
          metatronClicks := clicks
          circleColors := colors
          showMetatron := true
          metatronVisible := true
          flowerVisible := false }, true)
    else
      ({ st with metatronClicks := clicks, circleColors := colors }, true)
  else
    (FlowerOfLife.reset st, false)

/-- Feed a list of click ids through handleClick, keeping the state. -/
def FlowerOfLife.runClicks (st : FlowerState) (ids : List Nat) : FlowerState :=
  ids.foldl (fun s i => (FlowerOfLife.handleClick s i).1) st

/-- show() (part_006 lines 285-290): make the flower group visible and reset
the pattern.  Named showTableau because show is a Lean keyword. -/
def FlowerOfLife.showTableau (st : FlowerState) : FlowerState :=
  FlowerOfLife.reset { st with flowerVisible := true }

/-- hide() (part_006 lines 292-296): hide both groups and clear the terminal
flag (the click list is left as is; show() clears it on re-entry). -/
def FlowerOfLife.hideTableau (st : FlowerState) : FlowerState :=
  { st with flowerVisible := false, metatronVisible := false, showMetatron := false }

/-! ## ClockSecretGate: SaturnObject.checkTimingSecret
(src/src/lib/components/objects/SaturnObject.js lines 134-162) -/

structure SaturnState where
  saturnCounter : Nat
  lastSixMoment : Nat
  saturnSecretUnlocked : Bool
  deriving Repr, DecidableEq

/-- Constructor state (SaturnObject.js lines 12-14). -/
def SaturnObject.init : SaturnState :=
  { saturnCounter := 0, lastSixMoment := 0, saturnSecretUnlocked := false }

/-- seconds.toString().padStart(2, '0').includes('6') for a seconds value in
0..59: the two-digit form contains the character 6 iff the tens digit or the
ones digit is 6. -/
def containsSixDigit (s : Nat) : Bool :=
  (s / 10 == 6) || (s % 10 == 6)

/-- checkTimingSecret (SaturnObject.js lines 134-162), with the wall-clock
input reduced to currentTime.getSeconds().  Returns the new state and the
boolean the method returns. -/
def SaturnObject.checkTimingSecret (st : SaturnState) (seconds : Nat) : SaturnState × Bool :=
  if !containsSixDigit seconds then
    ({ st with saturnCounter := 0, lastSixMoment := seconds }, false)
  else if st.lastSixMoment == seconds then
    (st, false)
  else
    let st' := { st with lastSixMoment := seconds, saturnCounter := st.saturnCounter + 1 }
    if st'.saturnCounter ≥ 3 then
      ({ st' with saturnSecretUnlocked := true }, true)
    else
      (st', false)

/-- Feed a list of attempt times (seconds values) through checkTimingSecret. -/
def SaturnObject.runClock (st : SaturnState) (ss : List Nat) : SaturnState :=
  ss.foldl (fun s sec => (SaturnObject.checkTimingSecret s sec).1) st

/-! ## Claims C1 and C2 -/

/-- C1: SequenceGate: starting from the empty sequence, clicking the 13 target
ids exactly in the fixed order [0,1,3,5,2,4,6,7,9,11,8,10,12] makes completed
true exactly at the 13th click and not before; any click whose id differs from
the next expected id clears the received sequence to empty; and once completed
is true, every further click is not accepted. -/
theorem C1_sequence_gate :
    (∀ k, k ≤ 13 →
      (FlowerOfLife.runClicks FlowerOfLife.init
        (FRUIT_OF_LIFE_ORDER.take k)).showMetatron = decide (k = 13))
    ∧ (∀ st id, st.showMetatron = false →
        some id ≠ FRUIT_OF_LIFE_ORDER.get? st.metatronClicks.length →
        (FlowerOfLife.handleClick st id).1.metatronClicks = [])
    ∧ (∀ st id, st.showMetatron = true →
        FlowerOfLife.handleClick st id = (st, false)) := by
  refine ⟨by decide, ?_, ?_⟩
  · intro st id h1 h2
    rw [FlowerOfLife.handleClick, if_neg (by simp [h1]), if_neg h2]
    rfl
  · intro st id h1
    simp [FlowerOfLife.handleClick, h1]

/-- Witness for C1 at concrete inputs: the full ordered run completes, a
wrong first click (id 5, expected 0) leaves the received list empty, and a
click on the completed state is rejected. -/
theorem C1_sequence_gate_witness :
    (FlowerOfLife.runClicks FlowerOfLife.init
      (FRUIT_OF_LIFE_ORDER.take 13)).showMetatron = decide (13 = 13)
    ∧ (FlowerOfLife.handleClick FlowerOfLife.init 5).1.metatronClicks = []
    ∧ FlowerOfLife.handleClick
        { FlowerOfLife.init with showMetatron := true } 0 =
        ({ FlowerOfLife.init with showMetatron := true }, false) :=
  ⟨C1_sequence_gate.1 13 (by decide),
   C1_sequence_gate.2.1 FlowerOfLife.init 5 (by decide) (by decide),
   C1_sequence_gate.2.2 { FlowerOfLife.init with showMetatron := true } 0 (by decide)⟩

/-- C2: ClockSecretGate: from the initial state, attempts at wall-clock
seconds 06, 16, 26 advance the counter through 1, 2, 3 and the third attempt
returns unlocked = true; two attempts in a row at the same second value 06
credit the counter only once; and an attempt at second 05 (no digit 6) after
counter = 2 resets the counter to 0. -/
theorem C2_clock_gate :
    (let s1 := SaturnObject.checkTimingSecret SaturnObject.init 6
     let s2 := SaturnObject.checkTimingSecret s1.1 16
     let s3 := SaturnObject.checkTimingSecret s2.1 26
     s1.1.saturnCounter = 1 ∧ s2.1.saturnCounter = 2 ∧ s3.1.saturnCounter = 3
       ∧ s3.2 = true)
    ∧ (let t1 := SaturnObject.checkTimingSecret SaturnObject.init 6
       let t2 := SaturnObject.checkTimingSecret t1.1 6
       t2.1.saturnCounter = 1 ∧ t2.2 = false)
    ∧ (let u2 := SaturnObject.runClock SaturnObject.init [6, 16]
       u2.saturnCounter = 2
         ∧ (SaturnObject.checkTimingSecret u2 5).1.saturnCounter = 0) := by
  decide

/-! ## Claim C6: ClockSecretGate counter invariant

checkTimingSecret has no guard on saturnSecretUnlocked: after the unlocking
attempt the counter keeps incrementing on further distinct 6-containing
seconds and is still reset to 0 by a non-6 attempt, so the claimed [0,3]
range and the claimed absence of post-unlock resets both fail. -/

/-- Single-step invariant: while the secret is still locked, the counter is
at most 2 (it only ever reaches 3 together with the unlock flag). -/
theorem SaturnObject.checkTimingSecret_inv (st : SaturnState) (sec : Nat)
    (h : (SaturnObject.checkTimingSecret st sec).1.saturnSecretUnlocked = false)
    (hst : st.saturnSecretUnlocked = false → st.saturnCounter ≤ 2) :
    (SaturnObject.checkTimingSecret st sec).1.saturnCounter ≤ 2 := by
  simp only [SaturnObject.checkTimingSecret] at h ⊢
  split_ifs at h ⊢ with h1 h2 h3
  · exact Nat.zero_le 2
  · exact hst h
  · have h4 := hst h
    show st.saturnCounter + 1 ≤ 2
    omega

/-- Run invariant behind the amended C6. -/
theorem SaturnObject.runClock_inv (ss : List Nat) (st : SaturnState)
    (hst : st.saturnSecretUnlocked = false → st.saturnCounter ≤ 2) :
    (SaturnObject.runClock st ss).saturnSecretUnlocked = false →
      (SaturnObject.runClock st ss).saturnCounter ≤ 2 := by
  induction ss generalizing st with
  | nil => exact hst
  | cons sec rest ih =>
      intro h
      exact ih (SaturnObject.checkTimingSecret st sec).1
        (fun hu => SaturnObject.checkTimingSecret_inv st sec hu hst) h

/-- C6 counterexample: the run of attempts at seconds 06, 16, 26, 36 from the
initial state reaches a state with counter = 4, outside [0,3], and the run
06, 16, 26, 05 resets the counter to 0 after the unlock - so neither part of
the claim as stated holds. -/
theorem C6_clock_invariant_counterexample :
    (SaturnObject.runClock SaturnObject.init [6, 16, 26, 36]).saturnCounter = 4
    ∧ (SaturnObject.runClock SaturnObject.init [6, 16, 26, 36]).saturnSecretUnlocked = true
    ∧ (SaturnObject.runClock SaturnObject.init [6, 16, 26, 5]).saturnCounter = 0 := by
  decide

/-- C6 amended: in every state reachable from the initial gate state by any
sequence of attempts, as long as unlocked is still false the counter stays
within [0,3] (indeed within [0,2]); and once unlocked is true it stays true -
but the counter itself may keep changing (exceed 3 or reset to 0) on further
attempts. -/
theorem C6_clock_invariant_amended (ss : List Nat) :
    ((SaturnObject.runClock SaturnObject.init ss).saturnSecretUnlocked = false →
      (SaturnObject.runClock SaturnObject.init ss).saturnCounter ≤ 3)
    ∧ (∀ st sec, st.saturnSecretUnlocked = true →
        (SaturnObject.checkTimingSecret st sec).1.saturnSecretUnlocked = true) := by
  constructor
  · intro h
    have := SaturnObject.runClock_inv ss SaturnObject.init (fun _ => by decide) h
    omega
  · intro st sec hu
    simp only [SaturnObject.checkTimingSecret]
    split_ifs with h1 h2 h3
    · exact hu
    · exact hu
    · rfl
    · exact hu

/-- Witness for C6 amended at concrete inputs. -/
theorem C6_clock_invariant_amended_witness :
    (SaturnObject.runClock SaturnObject.init [6, 16]).saturnCounter ≤ 3
    ∧ (SaturnObject.checkTimingSecret
        { saturnCounter := 3, lastSixMoment := 26, saturnSecretUnlocked := true }
        5).1.saturnSecretUnlocked = true :=
  ⟨(C6_clock_invariant_amended [6, 16]).1 (by decide),
   (C6_clock_invariant_amended []).2
     { saturnCounter := 3, lastSixMoment := 26, saturnSecretUnlocked := true } 5 rfl⟩

/-- C10: tableau navigation erases SequenceGate progress: hide() clears the
completed flag, and show() resets the pattern - empty click list, flag false,
all circle colors restored to white - so leaving the flower tableau and
re-entering restarts the 13-click puzzle from scratch. -/
theorem C10_navigation_resets_sequence (st : FlowerState) :
    (FlowerOfLife.hideTableau st).showMetatron = false
    ∧ (FlowerOfLife.showTableau (FlowerOfLife.hideTableau st)).metatronClicks = []
    ∧ (FlowerOfLife.showTableau (FlowerOfLife.hideTableau st)).showMetatron = false
    ∧ (FlowerOfLife.showTableau (FlowerOfLife.hideTableau st)).flowerVisible = true
    ∧ ∀ c ∈ (FlowerOfLife.showTableau (FlowerOfLife.hideTableau st)).circleColors,
        c = 0xffffff := by
  refine ⟨rfl, rfl, rfl, rfl, ?_⟩
  intro c hc
  simp [FlowerOfLife.showTableau, FlowerOfLife.hideTableau, FlowerOfLife.reset] at hc
  exact hc.2

/-! ## BreathCycleGate: TriangleObject.checkBreathClick
(src/src/lib/components/objects/TriangleObject.js lines 135-191)

Times are in milliseconds (Date.now()), modelled as rationals.  The glow
expiry setTimeout only flips triangleGlowActive back to false 500 ms later;
the state here records the flag as checkBreathClick leaves it. -/

structure BreathState where
  breathStartTime : ℚ
  breathCounter : Nat
  lastClickCycle : Int
  triangleGlowActive : Bool
  deriving Repr, DecidableEq

/-- Constructor state (TriangleObject.js lines 11-19); breathStartTime 0 also
realises the claims' "cycle anchor at t=0". -/
def TriangleObject.init : BreathState :=
  { breathStartTime := 0, breathCounter := 0, lastClickCycle := -1,
    triangleGlowActive := false }

/-- JavaScript number-to-integer truncation (toward zero). -/
def jsTrunc (q : ℚ) : Int := if 0 ≤ q then ⌊q⌋ else -⌊-q⌋

/-- The JavaScript remainder x % y (sign follows the dividend). -/
def jsMod (x y : ℚ) : ℚ := x - y * (jsTrunc (x / y) : ℚ)

/-- phaseTime = elapsed % cycleDuration with elapsed in seconds
(TriangleObject.js lines 138-140). -/
def TriangleObject.phaseTime (st : BreathState) (now : ℚ) : ℚ :=
  jsMod ((now - st.breathStartTime) / 1000) 6

/-- currentCycle = Math.floor(elapsed / cycleDuration)
(TriangleObject.js line 141). -/
def TriangleObject.clickCycle (st : BreathState) (now : ℚ) : Int :=
  ⌊((now - st.breathStartTime) / 1000) / 6⌋

/-- isPeakMoment = phaseTime >= 1.3 && phaseTime <= 1.7
(TriangleObject.js line 144). -/
def TriangleObject.peakWindow (st : BreathState) (now : ℚ) : Prop :=
  1.3 ≤ TriangleObject.phaseTime st now ∧ TriangleObject.phaseTime st now ≤ 1.7

instance (st : BreathState) (now : ℚ) : Decidable (TriangleObject.peakWindow st now) :=
  instDecidableAnd

/-- checkBreathClick (TriangleObject.js lines 135-191).  Returns the new
state and the boolean the method returns (true = trinity achieved). -/
def TriangleObject.checkBreathClick (st : BreathState) (now : ℚ) : BreathState × Bool :=
  if TriangleObject.peakWindow st now then
    if TriangleObject.clickCycle st now = st.lastClickCycle then (st, false)
    else
      let st' := { st with
                    lastClickCycle := TriangleObject.clickCycle st now
                    breathCounter := st.breathCounter + 1
                    triangleGlowActive := true }
      if st'.breathCounter ≥ 3 then
        ({ st' with breathCounter := 0, lastClickCycle := -1 }, true)
      else (st', false)
  else
    ({ st with breathCounter := 0, lastClickCycle := -1,
               triangleGlowActive := false }, false)

/-- C3: BreathCycleGate: with the cycle anchor at t=0, clicks at elapsed
1.5s, 7.5s, 13.5s (the inhale peak of three successive 6-second cycles) make
the counter go 1, 2, then 0 with the third call returning trinity = true; a
click at elapsed 4.5s resets the counter to 0; and two clicks at 1.5s and
1.6s within the same cycle credit the counter only once. -/
theorem C3_breath_gate :
    (let a1 := TriangleObject.checkBreathClick TriangleObject.init 1500
     let a2 := TriangleObject.checkBreathClick a1.1 7500
     let a3 := TriangleObject.checkBreathClick a2.1 13500
     a1.1.breathCounter = 1 ∧ a1.2 = false
       ∧ a2.1.breathCounter = 2 ∧ a2.2 = false
       ∧ a3.1.breathCounter = 0 ∧ a3.2 = true)
    ∧ (let a1 := TriangleObject.checkBreathClick TriangleObject.init 1500
       (TriangleObject.checkBreathClick a1.1 4500).1.breathCounter = 0
         ∧ (TriangleObject.checkBreathClick a1.1 4500).2 = false)
    ∧ (let a1 := TriangleObject.checkBreathClick TriangleObject.init 1500
       (TriangleObject.checkBreathClick a1.1 1600).1.breathCounter = 1
         ∧ (TriangleObject.checkBreathClick a1.1 1600).2 = false) := by
  have h1 : TriangleObject.checkBreathClick TriangleObject.init 1500 =
      ({ breathStartTime := 0, breathCounter := 1, lastClickCycle := 0,
         triangleGlowActive := true }, false) := by
    norm_num [TriangleObject.checkBreathClick, TriangleObject.peakWindow,
      TriangleObject.phaseTime, TriangleObject.clickCycle, TriangleObject.init,
      jsMod, jsTrunc]
  have h2 : TriangleObject.checkBreathClick
      { breathStartTime := 0, breathCounter := 1, lastClickCycle := 0,
        triangleGlowActive := true } 7500 =
      ({ breathStartTime := 0, breathCounter := 2, lastClickCycle := 1,
         triangleGlowActive := true }, false) := by
    norm_num [TriangleObject.checkBreathClick, TriangleObject.peakWindow,
      TriangleObject.phaseTime, TriangleObject.clickCycle, jsMod, jsTrunc]
  have h3 : TriangleObject.checkBreathClick
      { breathStartTime := 0, breathCounter := 2, lastClickCycle := 1,
        triangleGlowActive := true } 13500 =
      ({ breathStartTime := 0, breathCounter := 0, lastClickCycle := -1,
         triangleGlowActive := true }, true) := by
    norm_num [TriangleObject.checkBreathClick, TriangleObject.peakWindow,
      TriangleObject.phaseTime, TriangleObject.clickCycle, jsMod, jsTrunc]
  have h4 : TriangleObject.checkBreathClick
      { breathStartTime := 0, breathCounter := 1, lastClickCycle := 0,
        triangleGlowActive := true } 4500 =
      ({ breathStartTime := 0, breathCounter := 0, lastClickCycle := -1,
         triangleGlowActive := false }, false) := by
    norm_num [TriangleObject.checkBreathClick, TriangleObject.peakWindow,
      TriangleObject.phaseTime, TriangleObject.clickCycle, jsMod, jsTrunc]
  have h5 : TriangleObject.checkBreathClick
      { breathStartTime := 0, breathCounter := 1, lastClickCycle := 0,
        triangleGlowActive := true } 1600 =
      ({ breathStartTime := 0, breathCounter := 1, lastClickCycle := 0,
         triangleGlowActive := true }, false) := by
    norm_num [TriangleObject.checkBreathClick, TriangleObject.peakWindow,
      TriangleObject.phaseTime, TriangleObject.clickCycle, jsMod, jsTrunc]
  simp only [h1, h2, h3, h4, h5]
  norm_num

/-- C4 counterexample: after a credited click at elapsed 1.5s (counter = 1,
cycle 0 credited, glow on), a second click at elapsed 1.6s lies inside the
peak window of the already-credited cycle; the gate reports failure but does
NOT reset the counter to 0 and does NOT deactivate the glow, contradicting
the claim. -/
theorem C4_breath_failure_counterexample :
    (let st1 := (TriangleObject.checkBreathClick TriangleObject.init 1500).1
     st1.breathCounter = 1 ∧ st1.lastClickCycle = 0 ∧ st1.triangleGlowActive = true
       ∧ TriangleObject.peakWindow st1 1600
       ∧ TriangleObject.clickCycle st1 1600 = st1.lastClickCycle
       ∧ (TriangleObject.checkBreathClick st1 1600).2 = false
       ∧ (TriangleObject.checkBreathClick st1 1600).1.breathCounter = 1
       ∧ (TriangleObject.checkBreathClick st1 1600).1.triangleGlowActive = true) := by
  have h1 : TriangleObject.checkBreathClick TriangleObject.init 1500 =
      ({ breathStartTime := 0, breathCounter := 1, lastClickCycle := 0,
         triangleGlowActive := true }, false) := by
    norm_num [TriangleObject.checkBreathClick, TriangleObject.peakWindow,
      TriangleObject.phaseTime, TriangleObject.clickCycle, TriangleObject.init,
      jsMod, jsTrunc]
  have h5 : TriangleObject.checkBreathClick
      { breathStartTime := 0, breathCounter := 1, lastClickCycle := 0,
        triangleGlowActive := true } 1600 =
      ({ breathStartTime := 0, breathCounter := 1, lastClickCycle := 0,
         triangleGlowActive := true }, false) := by
    norm_num [TriangleObject.checkBreathClick, TriangleObject.peakWindow,
      TriangleObject.phaseTime, TriangleObject.clickCycle, jsMod, jsTrunc]
  simp only [h1, h5]
  norm_num [TriangleObject.peakWindow, TriangleObject.phaseTime,
    TriangleObject.clickCycle, jsMod, jsTrunc]

/-- C4 amended: a click outside the peak window resets the counter to 0,
deactivates the glow and reports failure; a click inside the peak window of a
cycle that has already been credited reports failure but leaves the state
(counter, credited cycle, glow) unchanged. -/
theorem C4_breath_failure_amended (st : BreathState) (now : ℚ) :
    (¬ TriangleObject.peakWindow st now →
      TriangleObject.checkBreathClick st now =
        ({ st with breathCounter := 0, lastClickCycle := -1,
                   triangleGlowActive := false }, false))
    ∧ (TriangleObject.peakWindow st now →
        TriangleObject.clickCycle st now = st.lastClickCycle →
        TriangleObject.checkBreathClick st now = (st, false)) := by
  constructor
  · intro h
    rw [TriangleObject.checkBreathClick, if_neg h]
  · intro h hcyc
    rw [TriangleObject.checkBreathClick, if_pos h, if_pos hcyc]

/-- Witness for C4 amended at concrete inputs: the off-window click at
elapsed 4.5s, and the duplicate in-window click at elapsed 1.6s after the
credited one at 1.5s. -/
theorem C4_breath_failure_amended_witness :
    TriangleObject.checkBreathClick TriangleObject.init 4500 =
      ({ TriangleObject.init with
          breathCounter := 0
          lastClickCycle := -1
          triangleGlowActive := false }, false)
    ∧ TriangleObject.checkBreathClick
        { breathStartTime := 0, breathCounter := 1, lastClickCycle := 0,
          triangleGlowActive := true } 1600 =
        ({ breathStartTime := 0, breathCounter := 1, lastClickCycle := 0,
           triangleGlowActive := true }, false) :=
  ⟨(C4_breath_failure_amended TriangleObject.init 4500).1
      (by norm_num [TriangleObject.peakWindow, TriangleObject.phaseTime,
        TriangleObject.init, jsMod, jsTrunc]),
   (C4_breath_failure_amended
      { breathStartTime := 0, breathCounter := 1, lastClickCycle := 0,
        triangleGlowActive := true } 1600).2
      (by norm_num [TriangleObject.peakWindow, TriangleObject.phaseTime,
        jsMod, jsTrunc])
      (by norm_num [TriangleObject.clickCycle, jsMod, jsTrunc])⟩

/-! ## SceneStateMachine: the reducer and store (src/unnamed/part_008)

The store state, minus the timestamp metadata field (a Date.now() bookkeeping
value set identically by every case and read by nothing).  Floats are
rationals; error/status/lastAction strings are kept.  The source switch has a
case labelled ACTION_TYPES.SET_PERFORMANCE_MODE, but no such key exists in
ACTION_TYPES, so that label is undefined and the case matches exactly the
actions whose type is undefined: the undefinedType constructor models such an
action.  Unrecognized defined types fall to the default branch, modelled by
the unknown constructor. -/

structure SceneState where
  showCube : Bool
  showSaturn : Bool
  showTriangle : Bool
  showFlower : Bool
  autoRotate : Bool
  cubeSecretUnlocked : Bool
  saturnSecretUnlocked : Bool
  trinitySecretUnlocked : Bool
  mouseX : ℚ
  mouseY : ℚ
  saturnRotationX : ℚ
  saturnRotationY : ℚ
  isLoading : Bool
  error : Option String
  status : String
  lastAction : Option String
  performanceMode : Option String
  deriving Repr, DecidableEq

/-- initialState (part_008 lines 36-65); performanceMode is absent from the
initial object (undefined), modelled as none. -/
def SceneStore.initialState : SceneState :=
  { showCube := true
    showSaturn := false
    showTriangle := false
    showFlower := false
    autoRotate := true
    cubeSecretUnlocked := false
    saturnSecretUnlocked := false
    trinitySecretUnlocked := false
    mouseX := 0
    mouseY := 0
    saturnRotationX := 0
    saturnRotationY := 0
    isLoading := true
    error := none
    status := "init"
    lastAction := none
    performanceMode := none }

/-- The actions of part_008 (ACTION_TYPES plus payloads, lines 8-33 and the
action creators, lines 242-258), plus the two degenerate shapes the switch
can receive: an action whose type is undefined, and an unrecognized type. -/
inductive SceneAction where
  | showCube
  | showSaturn
  | showTriangle
  | showFlower
  | toggleAutoRotate
  | setAutoRotate (value : Bool)
  | unlockCubeSecret
  | unlockSaturnSecret
  | unlockTrinitySecret
  | updateMousePosition (x y : ℚ)
  | updateRotation (x y : ℚ)
  | setLoading (loading : Bool)
  | setError (error : String)
  | setStatus (status : String)
  | resetState
  | undefinedType (payload : String)
  | unknown (type : String)
  deriving Repr, DecidableEq

/-- reducer (part_008 lines 68-217), timestamp field omitted. -/
def reducer (state : SceneState) (action : SceneAction) : SceneState :=
  match action with
  | SceneAction.showCube =>
      { state with showCube := true, showSaturn := false, showTriangle := false,
                   showFlower := false, lastAction := some "SHOW_CUBE" }
  | SceneAction.showSaturn =>
      { state with showCube := false, showSaturn := true, showTriangle := false,
                   showFlower := false, lastAction := some "SHOW_SATURN" }
  | SceneAction.showTriangle =>
      { state with showCube := false, showSaturn := false, showTriangle := true,
                   showFlower := false, lastAction := some "SHOW_TRIANGLE" }
  | SceneAction.showFlower =>
      { state with showCube := false, showSaturn := false, showTriangle := false,
                   showFlower := true, lastAction := some "SHOW_FLOWER" }
  | SceneAction.toggleAutoRotate =>
      { state with autoRotate := !state.autoRotate,
                   lastAction := some "TOGGLE_AUTO_ROTATE" }
  | SceneAction.setAutoRotate value =>
      { state with autoRotate := value, lastAction := some "SET_AUTO_ROTATE" }
  | SceneAction.unlockCubeSecret =>
      { state with cubeSecretUnlocked := true, lastAction := some "UNLOCK_CUBE_SECRET" }
  | SceneAction.unlockSaturnSecret =>
      { state with saturnSecretUnlocked := true, lastAction := some "UNLOCK_SATURN_SECRET" }
  | SceneAction.unlockTrinitySecret =>
      { state with trinitySecretUnlocked := true, lastAction := some "UNLOCK_TRINITY_SECRET" }
  | SceneAction.updateMousePosition x y =>
      { state with mouseX := x, mouseY := y, lastAction := some "UPDATE_MOUSE_POSITION" }
  | SceneAction.updateRotation x y =>
      { state with saturnRotationX := x, saturnRotationY := y,
                   lastAction := some "UPDATE_ROTATION" }
  | SceneAction.setLoading loading =>
      { state with isLoading := loading, lastAction := some "SET_LOADING" }
  | SceneAction.setError e =>
      { state with error := some e, isLoading := false, status := "error",
                   lastAction := some "SET_ERROR" }
  | SceneAction.setStatus s =>
      { state with status := s, lastAction := some "SET_STATUS" }
  | SceneAction.undefinedType payload =>
      { state with performanceMode := some payload, lastAction := none }
  | SceneAction.resetState => SceneStore.initialState
  | SceneAction.unknown _ => state

/-! ## Magic-word bypass (src/unnamed/part_002 lines 9-25)

onMount: when the magic_word URL query parameter is the string abracadabra,
dispatch the three unlock actions, then SET_STATUS ready and SET_LOADING
false.  The gate objects (SaturnObject, TriangleObject, FlowerOfLife) live in
the SaturnianCube component and are not touched by this code path; AppState
aggregates them so that can be stated. -/

def App.onMountDispatches (magicWord : Option String) : List SceneAction :=
  (if magicWord = some "abracadabra" then
    [SceneAction.unlockCubeSecret, SceneAction.unlockSaturnSecret, SceneAction.unlockTrinitySecret]
  else []) ++ [SceneAction.setStatus "ready", SceneAction.setLoading false]

def App.onMountScene (magicWord : Option String) (s : SceneState) : SceneState :=
  (App.onMountDispatches magicWord).foldl reducer s

structure AppState where
  scene : SceneState
  saturnGate : SaturnState
  breathGate : BreathState
  flower : FlowerState
  deriving Repr, DecidableEq

/-- The application state at initial load. -/
def App.initialAppState : AppState :=
  { scene := SceneStore.initialState
    saturnGate := SaturnObject.init
    breathGate := TriangleObject.init
    flower := FlowerOfLife.init }

/-- onMount only dispatches store actions; no gate method is invoked. -/
def App.onMount (magicWord : Option String) (st : AppState) : AppState :=
  { st with scene := App.onMountScene magicWord st.scene }

/-- C7: SceneStateMachine monotonic unlocks: for every reducer action other
than RESET_STATE, each of the three unlock flags that is true in the
pre-state is still true in the post-state. -/
theorem C7_monotonic_unlocks (s : SceneState) (a : SceneAction) (h : a ≠ SceneAction.resetState) :
    (s.cubeSecretUnlocked = true → (reducer s a).cubeSecretUnlocked = true)
    ∧ (s.saturnSecretUnlocked = true → (reducer s a).saturnSecretUnlocked = true)
    ∧ (s.trinitySecretUnlocked = true → (reducer s a).trinitySecretUnlocked = true) := by
  cases a <;> simp_all [reducer]

/-- Witness for C7 at a concrete input: navigating to the Saturn tableau
keeps an already-unlocked cube secret unlocked. -/
theorem C7_monotonic_unlocks_witness :
    (reducer { SceneStore.initialState with cubeSecretUnlocked := true }
      SceneAction.showSaturn).cubeSecretUnlocked = true :=
  (C7_monotonic_unlocks { SceneStore.initialState with cubeSecretUnlocked := true }
    SceneAction.showSaturn (by decide)).1 rfl

/-- C9: magic-word bypass: on initial load with magic_word=abracadabra, all
three unlock flags become true, and none of the gate objects is touched
(no gate click/attempt logic runs - their states stay at their initial
values). -/
theorem C9_magic_word_bypass :
    (App.onMount (some "abracadabra") App.initialAppState).scene.cubeSecretUnlocked = true
    ∧ (App.onMount (some "abracadabra") App.initialAppState).scene.saturnSecretUnlocked = true
    ∧ (App.onMount (some "abracadabra") App.initialAppState).scene.trinitySecretUnlocked = true
    ∧ (App.onMount (some "abracadabra") App.initialAppState).saturnGate = SaturnObject.init
    ∧ (App.onMount (some "abracadabra") App.initialAppState).breathGate = TriangleObject.init
    ∧ (App.onMount (some "abracadabra") App.initialAppState).flower = FlowerOfLife.init := by
  decide

/-! ## AlignmentDetector debounce: updateCubeAppearance
(src/unnamed/part_005 lines 766-856)

Per-frame state of the yellow-edge debounce timer: yellowEdgeStartTime
(0 = unset, otherwise the Date.now() timestamp, in milliseconds, of the first
frame of the current full-reveal streak) and the store's cubeSecretUnlocked
flag (the store updates synchronously on dispatch, so the flag modelled here
is the value the next frame reads).  The source reads state.secretUnlocked,
a field that does not exist in the store and is therefore always undefined,
so the !state.secretUnlocked guard is always true and is omitted.  The
per-edge forEach body updates yellowEdgeStartTime / dispatches identically
for each of the 12 cube edges; its color work has no effect on this state. -/

structure CubeRevealState where
  yellowEdgeStartTime : ℚ
  cubeSecretUnlocked : Bool
  deriving Repr, DecidableEq

/-- The cubeEdges.forEach loop (part_005 lines 792-855), restricted to the
timer and dispatch effects; one recursive step per edge.  In the full-reveal
branch the duration is computed in seconds and compared to 2.0. -/
def updateCubeEdgeLoop (now strength : ℚ) : Nat → ℚ → Bool → ℚ × Bool
  | 0, v, fired => (v, fired)
  | n + 1, v, fired =>
      if 0.995 < strength then
        let v' := if v = 0 then now else v
        updateCubeEdgeLoop now strength n v'
          (fired || decide (2 ≤ (now - v') / 1000))
      else
        updateCubeEdgeLoop now strength n 0 fired

/-- updateCubeAppearance (part_005 lines 766-856): the line-770 re-arm of the
timer when the secret is already unlocked, the millisecond-based outer
dispatch check (lines 776-780), and the 12-edge loop.  Returns the new state
(with cubeSecretUnlocked set if the unlock event was dispatched this frame)
and whether the unlock event fired. -/
def updateCubeAppearance (st : CubeRevealState) (now strength : ℚ) :
    CubeRevealState × Bool :=
  let v0 : ℚ :=
    if st.cubeSecretUnlocked ∧ st.yellowEdgeStartTime = 0 then now
    else st.yellowEdgeStartTime
  let dur : ℚ := if 0 < v0 then now - v0 else 0
  let p : ℚ × Bool :=
    if 0.995 < strength then (v0, decide (2000 ≤ dur)) else ((0 : ℚ), false)
  let q := updateCubeEdgeLoop now strength 12 p.1 p.2
  ({ yellowEdgeStartTime := q.1, cubeSecretUnlocked := st.cubeSecretUnlocked || q.2 },
    q.2)

/-- The per-frame trace: frame i runs at wall-clock time t i (ms) with
hexagon strength s i. -/
def runCubeFrames (t s : Nat → ℚ) (st : CubeRevealState) : Nat → CubeRevealState
  | 0 => st
  | n + 1 => (updateCubeAppearance (runCubeFrames t s st n) (t n) (s n)).1

/-- Whether the unlock event fires at frame k of the trace. -/
def cubeFiredAt (t s : Nat → ℚ) (st : CubeRevealState) (k : Nat) : Bool :=
  (updateCubeAppearance (runCubeFrames t s st k) (t k) (s k)).2

theorem updateCubeEdgeLoop_low {strength : ℚ} (hs : strength ≤ 0.995) (now : ℚ) :
    ∀ n f, updateCubeEdgeLoop now strength n 0 f = (0, f) := by
  intro n
  induction n with
  | zero => intro f; rfl
  | succ n ih =>
      intro f
      rw [updateCubeEdgeLoop, if_neg (by exact absurd · (not_lt.mpr hs))]
      exact ih f

theorem updateCubeAppearance_low (st : CubeRevealState) {now strength : ℚ}
    (hs : strength ≤ 0.995) :
    updateCubeAppearance st now strength =
      ({ yellowEdgeStartTime := 0, cubeSecretUnlocked := st.cubeSecretUnlocked },
        false) := by
  rw [updateCubeAppearance]
  simp only [if_neg (not_lt.mpr hs)]
  rw [updateCubeEdgeLoop]
  rw [if_neg (by exact absurd · (not_lt.mpr hs))]
  rw [updateCubeEdgeLoop_low hs]
  simp

theorem updateCubeEdgeLoop_fix {now strength v : ℚ} (hs : 0.995 < strength)
    (hv : (if v = 0 then now else v) = v) :
    ∀ n f, updateCubeEdgeLoop now strength n v f =
      (v, f || (decide (0 < n) && decide (2 ≤ (now - v) / 1000))) := by
  intro n
  induction n with
  | zero => intro f; simp [updateCubeEdgeLoop]
  | succ n ih =>
      intro f
      rw [updateCubeEdgeLoop, if_pos hs]
      simp only [hv]
      rw [ih]
      cases f <;> cases hc : decide (2 ≤ (now - v) / 1000) <;> simp [hc]

theorem updateCubeEdgeLoop_high {now strength v : ℚ} (hs : 0.995 < strength)
    (n : Nat) (f : Bool) :
    updateCubeEdgeLoop now strength (n + 1) v f =
      (if v = 0 then now else v,
        f || decide (2 ≤ (now - (if v = 0 then now else v)) / 1000)) := by
  rw [updateCubeEdgeLoop, if_pos hs]
  rw [updateCubeEdgeLoop_fix hs]
  · cases hc : decide (2 ≤ (now - (if v = 0 then now else v)) / 1000) <;>
      cases f <;> simp [hc]
  · by_cases hv : v = 0
    · simp [hv]
    · simp [hv]

theorem updateCubeAppearance_high (st : CubeRevealState) {now strength : ℚ}
    (hs : 0.995 < strength) :
    updateCubeAppearance st now strength =
      (let v0 : ℚ :=
        if st.cubeSecretUnlocked ∧ st.yellowEdgeStartTime = 0 then now
        else st.yellowEdgeStartTime
      let w : ℚ := if v0 = 0 then now else v0
      let F : Bool :=
        decide (2000 ≤ (if 0 < v0 then now - v0 else 0))
          || decide (2 ≤ (now - w) / 1000)
      ({ yellowEdgeStartTime := w, cubeSecretUnlocked := st.cubeSecretUnlocked || F },
        F)) := by
  rw [updateCubeAppearance]
  simp only [if_pos hs]
  rw [updateCubeEdgeLoop_high hs]

theorem updateCubeAppearance_high_start (st : CubeRevealState) {now strength : ℚ}
    (hs : 0.995 < strength) :
    (updateCubeAppearance st now strength).1.yellowEdgeStartTime =
      if st.yellowEdgeStartTime = 0 then now else st.yellowEdgeStartTime := by
  rw [updateCubeAppearance_high st hs]
  by_cases h0 : st.yellowEdgeStartTime = 0
  · by_cases hu : st.cubeSecretUnlocked
    · simp [h0, hu]
    · simp [h0, hu]
  · simp [h0]

theorem updateCubeAppearance_fired (st : CubeRevealState) {now strength : ℚ}
    (hs : 0.995 < strength)
    (hf : (updateCubeAppearance st now strength).2 = true) :
    st.yellowEdgeStartTime ≠ 0 ∧ 2000 ≤ now - st.yellowEdgeStartTime := by
  rw [updateCubeAppearance_high st hs] at hf
  by_cases hc : st.cubeSecretUnlocked ∧ st.yellowEdgeStartTime = 0
  · exfalso
    revert hf
    simp only [if_pos hc, ite_self, sub_self]
    norm_num
  · simp only [if_neg hc] at hf
    by_cases h0 : st.yellowEdgeStartTime = 0
    · exfalso
      revert hf
      simp only [h0, if_pos rfl, lt_irrefl, if_false, sub_self]
      norm_num
    · refine ⟨h0, ?_⟩
      rw [if_neg h0] at hf
      simp only [Bool.or_eq_true, decide_eq_true_eq] at hf
      rcases hf with h | h
      · by_cases hp : 0 < st.yellowEdgeStartTime
        · rwa [if_pos hp] at h
        · rw [if_neg hp] at h
          norm_num at h
      · have := (le_div_iff₀ (by norm_num : (0:ℚ) < 1000)).mp h
        linarith

theorem runCubeFrames_start_spec (t s : Nat → ℚ) (u : Bool) :
    ∀ i, (runCubeFrames t s ⟨0, u⟩ i).yellowEdgeStartTime ≠ 0 →
      ∃ j, j < i ∧ (runCubeFrames t s ⟨0, u⟩ i).yellowEdgeStartTime = t j ∧
        ∀ m, j ≤ m → m < i → 0.995 < s m := by
  intro i
  induction i with
  | zero => intro h; exact absurd rfl h
  | succ i ih =>
      intro h
      by_cases hs : 0.995 < s i
      · rw [runCubeFrames, updateCubeAppearance_high_start _ hs] at h ⊢
        by_cases h0 : (runCubeFrames t s ⟨0, u⟩ i).yellowEdgeStartTime = 0
        · rw [if_pos h0]
          exact ⟨i, Nat.lt_succ_self i, rfl,
            fun m hm1 hm2 => by
              have : m = i := by omega
              rwa [this]⟩
        · rw [if_neg h0]
          obtain ⟨j, hj, hst, hstreak⟩ := ih h0
          exact ⟨j, Nat.lt_succ_of_lt hj, hst,
            fun m hm1 hm2 => by
              rcases Nat.lt_or_ge m i with hmi | hmi
              · exact hstreak m hm1 hmi
              · have : m = i := by omega
                rwa [this]⟩
      · rw [runCubeFrames, updateCubeAppearance_low _ (not_lt.mp hs)] at h
        exact absurd rfl h

/-- C5: AlignmentDetector unlock debounce: the cube secret-unlock event fires
at a frame only if the full-reveal condition (strength > 0.995) has held at
every frame of a streak spanning at least 2000 ms (2.0 seconds) up to and
including that frame; and the debounce timer is reset to zero on any frame
where strength is at or below 0.995. -/
theorem C5_unlock_debounce (t s : Nat → ℚ) (u : Bool) (k : Nat) :
    (cubeFiredAt t s ⟨0, u⟩ k = true →
      ∃ j, j ≤ k ∧ 2000 ≤ t k - t j ∧ ∀ m, j ≤ m → m ≤ k → 0.995 < s m)
    ∧ (∀ i, s i ≤ 0.995 →
        (runCubeFrames t s ⟨0, u⟩ (i + 1)).yellowEdgeStartTime = 0) := by
  constructor
  · intro hf
    rw [cubeFiredAt] at hf
    have hs : 0.995 < s k := by
      by_contra hns
      rw [updateCubeAppearance_low _ (not_lt.mp hns)] at hf
      exact Bool.false_ne_true hf
    obtain ⟨h0, hdur⟩ := updateCubeAppearance_fired _ hs hf
    obtain ⟨j, hj, hst, hstreak⟩ := runCubeFrames_start_spec t s u k h0
    refine ⟨j, Nat.le_of_lt hj, by rwa [hst] at hdur, fun m hm1 hm2 => ?_⟩
    rcases Nat.lt_or_ge m k with hmk | hmk
    · exact hstreak m hm1 hmk
    · have : m = k := by omega
      rwa [this]
  · intro i hsi
    rw [runCubeFrames, updateCubeAppearance_low _ hsi]

/-- Witness for C5 at a concrete trace: with frames at times 1, 1001, 2001 ms
all at strength 1, the unlock fires at frame 2 after a 2000 ms streak; and
with strength 0 the first frame zeroes the timer. -/
theorem C5_unlock_debounce_witness :
    (∃ j : Nat, j ≤ 2 ∧ (2000 : ℚ) ≤ (((2 : Nat) : ℚ) * 1000 + 1) - ((j : ℚ) * 1000 + 1)
        ∧ ∀ m : Nat, j ≤ m → m ≤ 2 → (0.995 : ℚ) < (1 : ℚ))
    ∧ (runCubeFrames (fun i => (i : ℚ) * 1000 + 1) (fun _ => 0)
        ⟨0, false⟩ 1).yellowEdgeStartTime = 0 :=
  ⟨(C5_unlock_debounce (fun i => (i : ℚ) * 1000 + 1) (fun _ => 1) false 2).1
      (by norm_num [cubeFiredAt, runCubeFrames, updateCubeAppearance,
        updateCubeEdgeLoop]),
   (C5_unlock_debounce (fun i => (i : ℚ) * 1000 + 1) (fun _ => 0) false 0).2 0
      (by norm_num)⟩

/-! ## AlignmentDetector: the hexagon-strength computation
(src/unnamed/part_005 lines 689-722)

The animate loop builds the 8 corner unit vectors (+-1,+-1,+-1).normalize(),
rotates each by the cube's Euler rotation (three.js default order XYZ, i.e.
v goes through Rz, then Ry, then Rx), takes the maximum of
|viewDir . corner| over the 8 (starting from 0), and raises it to the 100th
power - forced to 0 when autoRotate is on.  The development is generic over
a linear ordered field; a rotation about an axis is represented by the
cosine/sine pair of its angle (the pair is constrained to the unit circle
exactly where a theorem needs it), and the normalized corner component
1/sqrt(3) is a parameter r constrained by 3*r^2 = 1. -/

structure Vec3 (K : Type) where
  x : K
  y : K
  z : K

section AlignmentGeometry

variable {K : Type} [LinearOrderedField K]

/-- THREE.Vector3.dot. -/
def Vec3.dot (a b : Vec3 K) : K := a.x * b.x + a.y * b.y + a.z * b.z

def rotateX (c s : K) (v : Vec3 K) : Vec3 K :=
  ⟨v.x, c * v.y - s * v.z, s * v.y + c * v.z⟩

def rotateY (c s : K) (v : Vec3 K) : Vec3 K :=
  ⟨c * v.x + s * v.z, v.y, -s * v.x + c * v.z⟩

def rotateZ (c s : K) (v : Vec3 K) : Vec3 K :=
  ⟨c * v.x - s * v.y, s * v.x + c * v.y, v.z⟩

def applyEuler (cx sx cy sy cz sz : K) (v : Vec3 K) : Vec3 K :=
  rotateX cx sx (rotateY cy sy (rotateZ cz sz v))

/-- The 8 corner directions (part_005 lines 698-707), each normalized:
r stands for 1/sqrt(3). -/
def localCorners (r : K) : List (Vec3 K) :=
  [⟨r, r, r⟩, ⟨r, r, -r⟩, ⟨r, -r, r⟩, ⟨r, -r, -r⟩,
   ⟨-r, r, r⟩, ⟨-r, r, -r⟩, ⟨-r, -r, r⟩, ⟨-r, -r, -r⟩]

/-- maxAlignment (part_005 lines 691, 714-718): fold of max over the
rotated corners, starting from 0. -/
def maxAlignment (viewDir : Vec3 K) (corners : List (Vec3 K)) : K :=
  corners.foldl (fun m c => max m |Vec3.dot viewDir c|) 0

/-- hexagonStrength (part_005 line 722): 0 under auto-rotation, otherwise
maxAlignment ^ 100. -/
def hexagonStrength (autoRotate : Bool) (viewDir : Vec3 K)
    (cx sx cy sy cz sz r : K) : K :=
  if autoRotate then 0
  else (maxAlignment viewDir ((localCorners r).map (applyEuler cx sx cy sy cz sz))) ^ 100

theorem Vec3.dot_rotateX {c s : K} (h : c ^ 2 + s ^ 2 = 1) (v w : Vec3 K) :
    Vec3.dot (rotateX c s v) (rotateX c s w) = Vec3.dot v w := by
  simp only [rotateX, Vec3.dot]
  linear_combination (v.y * w.y + v.z * w.z) * h

theorem Vec3.dot_rotateY {c s : K} (h : c ^ 2 + s ^ 2 = 1) (v w : Vec3 K) :
    Vec3.dot (rotateY c s v) (rotateY c s w) = Vec3.dot v w := by
  simp only [rotateY, Vec3.dot]
  linear_combination (v.x * w.x + v.z * w.z) * h

theorem Vec3.dot_rotateZ {c s : K} (h : c ^ 2 + s ^ 2 = 1) (v w : Vec3 K) :
    Vec3.dot (rotateZ c s v) (rotateZ c s w) = Vec3.dot v w := by
  simp only [rotateZ, Vec3.dot]
  linear_combination (v.x * w.x + v.y * w.y) * h

theorem Vec3.dot_applyEuler {cx sx cy sy cz sz : K}
    (hx : cx ^ 2 + sx ^ 2 = 1) (hy : cy ^ 2 + sy ^ 2 = 1) (hz : cz ^ 2 + sz ^ 2 = 1)
    (v w : Vec3 K) :
    Vec3.dot (applyEuler cx sx cy sy cz sz v) (applyEuler cx sx cy sy cz sz w) =
      Vec3.dot v w := by
  simp only [applyEuler]
  rw [Vec3.dot_rotateX hx, Vec3.dot_rotateY hy, Vec3.dot_rotateZ hz]

theorem corner_self_dot {r : K} (hr : 3 * r ^ 2 = 1) :
    ∀ c ∈ localCorners r, Vec3.dot c c = 1 := by
  intro c hc
  simp only [localCorners, List.mem_cons, List.not_mem_nil, or_false] at hc
  rcases hc with rfl | rfl | rfl | rfl | rfl | rfl | rfl | rfl <;>
    · simp only [Vec3.dot]; linear_combination hr

theorem corner_components {r : K} :
    ∀ c ∈ localCorners r,
      (c.x = r ∨ c.x = -r) ∧ (c.y = r ∨ c.y = -r) ∧ (c.z = r ∨ c.z = -r) := by
  intro c hc
  simp only [localCorners, List.mem_cons, List.not_mem_nil, or_false] at hc
  rcases hc with rfl | rfl | rfl | rfl | rfl | rfl | rfl | rfl <;>
    exact ⟨by simp, by simp, by simp⟩

theorem pm_mul_abs_le {r a b : K} (ha : a = r ∨ a = -r) (hb : b = r ∨ b = -r) :
    |a * b| ≤ r ^ 2 := by
  rcases ha with rfl | rfl <;> rcases hb with rfl | rfl <;>
    · rw [abs_mul]
      simp [abs_neg, ← pow_two, sq_abs]

theorem corner_dot_bound {r : K} (hr : 3 * r ^ 2 = 1) :
    ∀ c ∈ localCorners r, ∀ c' ∈ localCorners r, |Vec3.dot c c'| ≤ 1 := by
  intro c hc c' hc'
  obtain ⟨hx1, hy1, hz1⟩ := corner_components c hc
  obtain ⟨hx2, hy2, hz2⟩ := corner_components c' hc'
  have bx := pm_mul_abs_le hx1 hx2
  have by' := pm_mul_abs_le hy1 hy2
  have bz := pm_mul_abs_le hz1 hz2
  have tri : |Vec3.dot c c'| ≤ |c.x * c'.x| + |c.y * c'.y| + |c.z * c'.z| := by
    calc |Vec3.dot c c'| = |c.x * c'.x + c.y * c'.y + c.z * c'.z| := rfl
    _ ≤ |c.x * c'.x + c.y * c'.y| + |c.z * c'.z| := abs_add _ _
    _ ≤ |c.x * c'.x| + |c.y * c'.y| + |c.z * c'.z| :=
        add_le_add_right (abs_add _ _) _
  linarith

theorem foldl_max_le (f : Vec3 K → K) (L : List (Vec3 K)) :
    ∀ a b : K, a ≤ b → (∀ x ∈ L, f x ≤ b) →
      L.foldl (fun m x => max m (f x)) a ≤ b := by
  induction L with
  | nil => intro a b ha _; exact ha
  | cons hd tl ih =>
      intro a b ha h
      exact ih _ _ (max_le ha (h hd (List.mem_cons_self hd tl)))
        (fun x hx => h x (List.mem_cons_of_mem hd hx))

theorem foldl_max_init_le (f : Vec3 K → K) (L : List (Vec3 K)) :
    ∀ a : K, a ≤ L.foldl (fun m x => max m (f x)) a := by
  induction L with
  | nil => intro a; exact le_refl a
  | cons hd tl ih =>
      intro a
      exact le_trans (le_max_left a (f hd)) (ih (max a (f hd)))

theorem le_foldl_max (f : Vec3 K → K) (L : List (Vec3 K)) :
    ∀ a : K, ∀ x ∈ L, f x ≤ L.foldl (fun m x => max m (f x)) a := by
  induction L with
  | nil => intro a x hx; exact absurd hx (List.not_mem_nil x)
  | cons hd tl ih =>
      intro a x hx
      rcases List.mem_cons.mp hx with rfl | hx'
      · exact le_trans (le_max_right a (f x)) (foldl_max_init_le f tl _)
      · exact ih _ x hx'

/-- C8: AlignmentDetector self-alignment: for every object rotation (the
cosine/sine pairs of the three Euler angles) and each of the 8 canonical
corner-diagonal unit vectors c, the reveal-strength computation with
viewDirection set exactly to the rotated corner gives maximum alignment 1
over the 8 rotated corners, and strength 1^100 = 1 (in manual mode, where
the computation runs). -/
theorem C8_self_alignment (cx sx cy sy cz sz r : K)
    (hx : cx ^ 2 + sx ^ 2 = 1) (hy : cy ^ 2 + sy ^ 2 = 1) (hz : cz ^ 2 + sz ^ 2 = 1)
    (hr : 3 * r ^ 2 = 1) :
    ∀ c ∈ localCorners r,
      maxAlignment (applyEuler cx sx cy sy cz sz c)
        ((localCorners r).map (applyEuler cx sx cy sy cz sz)) = 1
      ∧ hexagonStrength false (applyEuler cx sx cy sy cz sz c) cx sx cy sy cz sz r
          = 1 := by
  intro c hc
  have hdot := Vec3.dot_applyEuler (K := K) hx hy hz
  have hmax : maxAlignment (applyEuler cx sx cy sy cz sz c)
      ((localCorners r).map (applyEuler cx sx cy sy cz sz)) = 1 := by
    apply le_antisymm
    · apply foldl_max_le _ _ _ _ (by norm_num)
      intro x hxm
      obtain ⟨c', hc', rfl⟩ := List.mem_map.mp hxm
      rw [hdot]
      exact corner_dot_bound hr c hc c' hc'
    · have hmem : applyEuler cx sx cy sy cz sz c ∈
          (localCorners r).map (applyEuler cx sx cy sy cz sz) :=
        List.mem_map_of_mem _ hc
      have hb := le_foldl_max (fun v => |Vec3.dot (applyEuler cx sx cy sy cz sz c) v|)
        ((localCorners r).map (applyEuler cx sx cy sy cz sz)) 0 _ hmem
      simp only at hb
      rw [hdot, corner_self_dot hr c hc, abs_one] at hb
      exact hb
  refine ⟨hmax, ?_⟩
  rw [hexagonStrength, if_neg (by simp), hmax, one_pow]

end AlignmentGeometry

/-- Witness for C8 over the reals: the identity rotation (cosine 1, sine 0
for each angle), r = 1/sqrt(3), and the first corner (r, r, r). -/
theorem C8_self_alignment_witness :
    maxAlignment
        (applyEuler (1 : ℝ) 0 1 0 1 0 ⟨(Real.sqrt 3)⁻¹, (Real.sqrt 3)⁻¹, (Real.sqrt 3)⁻¹⟩)
        ((localCorners ((Real.sqrt 3)⁻¹ : ℝ)).map (applyEuler 1 0 1 0 1 0)) = 1
    ∧ hexagonStrength false
        (applyEuler (1 : ℝ) 0 1 0 1 0 ⟨(Real.sqrt 3)⁻¹, (Real.sqrt 3)⁻¹, (Real.sqrt 3)⁻¹⟩)
        1 0 1 0 1 0 (Real.sqrt 3)⁻¹ = 1 :=
  C8_self_alignment 1 0 1 0 1 0 (Real.sqrt 3)⁻¹
    (by norm_num) (by norm_num) (by norm_num)
    (by rw [inv_pow, Real.sq_sqrt (by norm_num : (0 : ℝ) ≤ 3)]; norm_num)
    ⟨(Real.sqrt 3)⁻¹, (Real.sqrt 3)⁻¹, (Real.sqrt 3)⁻¹⟩
    (by simp [localCorners])
